import Mathlib

/-!
# Verification of the chip8 interpreter core

Shallow embedding of the CHIP-8 interpreter from `src/cpu.rs`, `src/audio.rs`,
`src/input.rs` and `src/video.rs`, together with theorems settling the claims
about its specification.

Modelling conventions:
* Machine integers (`u8`, `u16`, `usize`) are `Nat` with explicit `% 256` /
  `% 65536` wrapping exactly where the Rust code wraps (`wrapping_add`,
  `as u8` casts, `u8` shifts).
* Rust fixed-size arrays become functions `Nat → α` and every indexing site
  performs the same runtime bounds check the Rust array does: an
  out-of-bounds index is a panic, modelled as `Except.error`.
* Arithmetic overflow/underflow of `-=`, `+=` on `u8`/`usize` panics in the
  default (debug) build profile; it is modelled as an error as well.
* The SDL-facing pieces of `CPU::tick` (presenting the canvas, polling host
  events into the keypad, wall-clock pacing via `Timer::skip`, and the host
  quit signal) are the driver/presentation layer; the embedding models the
  machine-step core of `tick` (the `pc` stall check, key-wait resolution,
  timer tick, fetch, decode, execute) on a state whose keypad already
  reflects the delivered host events.  The random byte drawn by `0xCXKK`
  is passed in as an explicit `rnd` argument.
-/

/-- `RAM_SIZE` from cpu.rs. -/
def RAM_SIZE : Nat := 4096

/-- `OPCODE_LENGTH` from cpu.rs. -/
def OPCODE_LENGTH : Nat := 2

/-- `SPRITE_LENGTH` from cpu.rs. -/
def SPRITE_LENGTH : Nat := 5

/-- `DISPLAY_WIDTH` from video.rs. -/
def DISPLAY_WIDTH : Nat := 64

/-- `DISPLAY_HEIGHT` from video.rs. -/
def DISPLAY_HEIGHT : Nat := 32

/-- A Rust panic raised while executing a machine step.  `unknownOpcode`
carries exactly the data formatted by `panic!("Unknown opcode {:x?}", opcode)`
in `CPU::execute`; `indexOutOfBounds` carries the length and index printed by
a Rust slice bounds-check failure; `arithOverflow` is an integer
overflow/underflow panic of a checked `-=`/`+=`. -/
inductive ExecErr where
  | unknownOpcode (opcode : Nat)
  | indexOutOfBounds (len index : Nat)
  | arithOverflow
deriving DecidableEq, Repr

/-- Bounds-checked read of a Rust fixed-size array of length `len`,
represented as a function. -/
def readArr {α : Type} (len : Nat) (a : Nat → α) (index : Nat) :
    Except ExecErr α :=
  if index < len then Except.ok (a index)
  else Except.error (ExecErr.indexOutOfBounds len index)

/-- Bounds-checked write to a Rust fixed-size array of length `len`. -/
def writeArr {α : Type} (len : Nat) (a : Nat → α) (index : Nat) (val : α) :
    Except ExecErr (Nat → α) :=
  if index < len then Except.ok (fun j => if j = index then val else a j)
  else Except.error (ExecErr.indexOutOfBounds len index)

/-- The `Audio` struct of audio.rs: the two 8-bit countdown timers. -/
structure Audio where
  delay : Nat
  sound : Nat
deriving DecidableEq, Repr

/-- `Audio::tick` from audio.rs, verbatim:
```text
if self.delay > 0 { self.delay -= 1 }
if self.sound > 0 { self.delay -= 1 }
```
Note the second branch tests `sound` but decrements `delay` again; when that
second `delay -= 1` underflows the `u8` the (debug-profile) subtraction
panics, modelled as `none`. -/
def Audio.tick (a : Audio) : Option Audio :=
  let d1 := if 0 < a.delay then a.delay - 1 else a.delay
  if 0 < a.sound then
    if 0 < d1 then some { delay := d1 - 1, sound := a.sound }
    else none
  else some { delay := d1, sound := a.sound }

/-- The `Keypad` struct of input.rs: 16 press flags and the one-slot
last-released latch (`u8` key value). -/
structure Keypad where
  pressed : Nat → Bool
  last_released : Option Nat

/-- `Keypad::consume_last_released` from input.rs: returns the latch and
clears it. -/
def Keypad.consume_last_released (k : Keypad) : Option Nat × Keypad :=
  (k.last_released, { k with last_released := none })

/-- The `Display` struct of video.rs: the 64×32 pixel grid `ram[y][x]`
(meaningful for `y < DISPLAY_HEIGHT`, `x < DISPLAY_WIDTH`; the source wraps
every access into bounds with `%`) and the dirty flag `update`. -/
structure Display where
  ram : Nat → Nat → Bool
  update : Bool

/-- `Display::set` from video.rs: wraps the coordinates, computes the
collision bit, XOR-toggles the cell, and sets the dirty flag
unconditionally. -/
def Display.set (d : Display) (x y : Nat) (fill : Bool) : Display × Bool :=
  let cx := x % DISPLAY_WIDTH
  let cy := y % DISPLAY_HEIGHT
  let collision := fill && d.ram cy cx
  ({ ram := fun y0 x0 =>
       if y0 = cy ∧ x0 = cx then xor (d.ram y0 x0) fill else d.ram y0 x0,
     update := true },
   collision)

/-- `Display::clear` from video.rs: every cell false, dirty flag set. -/
def Display.clear (_d : Display) : Display :=
  { ram := fun _ _ => false, update := true }

/-- The `CPU` struct of cpu.rs (its machine-state fields; the SDL event pump
and the wall-clock `Timer` are host-facing and live in the driver). -/
structure CPU where
  ram : Nat → Nat
  pc : Nat
  v : Nat → Nat
  i : Nat
  stack : Nat → Nat
  sp : Nat
  keypad : Keypad
  key_register : Option Nat
  audio : Audio
  display : Display

/-- `CPU::next`: advance the program counter over one opcode. -/
def CPU.next (c : CPU) : CPU := { c with pc := c.pc + OPCODE_LENGTH }

/-- `CPU::skip_if`: advance the program counter by two opcodes when the
condition holds, else by one. -/
def CPU.skip_if (c : CPU) (condition : Bool) : CPU :=
  if condition then { c with pc := c.pc + OPCODE_LENGTH * 2 }
  else { c with pc := c.pc + OPCODE_LENGTH }

/-- 0nnn - SYS addr: ignored, advance PC. -/
def CPU.op_0nnn (c : CPU) (_nnn : Nat) : Except ExecErr CPU :=
  Except.ok (CPU.next c)

/-- 00E0 - CLS: clear the display. -/
def CPU.op_00e0 (c : CPU) : Except ExecErr CPU :=
  Except.ok (CPU.next { c with display := Display.clear c.display })

/-- 00EE - RET: `self.sp -= 1; self.pc = self.stack[self.sp]`.  The `usize`
decrement of an empty stack pointer underflows (panic); the stack read is
bounds-checked. -/
def CPU.op_00ee (c : CPU) : Except ExecErr CPU :=
  if c.sp = 0 then Except.error ExecErr.arithOverflow
  else do
    let sp1 := c.sp - 1
    let addr ← readArr 16 c.stack sp1
    Except.ok { c with sp := sp1, pc := addr }

/-- 1nnn - JP addr. -/
def CPU.op_1nnn (c : CPU) (nnn : Nat) : Except ExecErr CPU :=
  Except.ok { c with pc := nnn }

/-- 2nnn - CALL addr: push `pc + OPCODE_LENGTH`, bump `sp`, jump. -/
def CPU.op_2nnn (c : CPU) (nnn : Nat) : Except ExecErr CPU := do
  let stack1 ← writeArr 16 c.stack c.sp (c.pc + OPCODE_LENGTH)
  Except.ok { c with stack := stack1, sp := c.sp + 1, pc := nnn }

/-- 3xkk - SE Vx, byte. -/
def CPU.op_3xkk (c : CPU) (x kk : Nat) : Except ExecErr CPU := do
  let vx ← readArr 16 c.v x
  Except.ok (CPU.skip_if c (vx == kk))

/-- 4xkk - SNE Vx, byte. -/
def CPU.op_4xkk (c : CPU) (x kk : Nat) : Except ExecErr CPU := do
  let vx ← readArr 16 c.v x
  Except.ok (CPU.skip_if c (vx != kk))

/-- 5xy0 - SE Vx, Vy. -/
def CPU.op_5xy0 (c : CPU) (x y : Nat) : Except ExecErr CPU := do
  let vx ← readArr 16 c.v x
  let vy ← readArr 16 c.v y
  Except.ok (CPU.skip_if c (vx == vy))

/-- 6xkk - LD Vx, byte. -/
def CPU.op_6xkk (c : CPU) (x kk : Nat) : Except ExecErr CPU := do
  let v1 ← writeArr 16 c.v x kk
  Except.ok (CPU.next { c with v := v1 })

/-- 7xkk - ADD Vx, byte (`wrapping_add` on `u8`). -/
def CPU.op_7xkk (c : CPU) (x kk : Nat) : Except ExecErr CPU := do
  let vx ← readArr 16 c.v x
  let v1 ← writeArr 16 c.v x ((vx + kk) % 256)
  Except.ok (CPU.next { c with v := v1 })

/-- 8xy0 - LD Vx, Vy. -/
def CPU.op_8xy0 (c : CPU) (x y : Nat) : Except ExecErr CPU := do
  let vy ← readArr 16 c.v y
  let v1 ← writeArr 16 c.v x vy
  Except.ok (CPU.next { c with v := v1 })

/-- 8xy1 - OR Vx, Vy. -/
def CPU.op_8xy1 (c : CPU) (x y : Nat) : Except ExecErr CPU := do
  let vx ← readArr 16 c.v x
  let vy ← readArr 16 c.v y
  let v1 ← writeArr 16 c.v x (vx ||| vy)
  Except.ok (CPU.next { c with v := v1 })

/-- 8xy2 - AND Vx, Vy. -/
def CPU.op_8xy2 (c : CPU) (x y : Nat) : Except ExecErr CPU := do
  let vx ← readArr 16 c.v x
  let vy ← readArr 16 c.v y
  let v1 ← writeArr 16 c.v x (vx &&& vy)
  Except.ok (CPU.next { c with v := v1 })

/-- 8xy3 - XOR Vx, Vy. -/
def CPU.op_8xy3 (c : CPU) (x y : Nat) : Except ExecErr CPU := do
  let vx ← readArr 16 c.v x
  let vy ← readArr 16 c.v y
  let v1 ← writeArr 16 c.v x (vx ^^^ vy)
  Except.ok (CPU.next { c with v := v1 })

/-- 8xy4 - ADD Vx, Vy: `u16` sum, `Vx = sum as u8` first, then
`VF = (sum > 0xFF) as u8` — in that source order, so `x = 0xF` ends with the
carry, not the sum. -/
def CPU.op_8xy4 (c : CPU) (x y : Nat) : Except ExecErr CPU := do
  let vx0 ← readArr 16 c.v x
  let vy0 ← readArr 16 c.v y
  let vx := vx0 + vy0
  let v1 ← writeArr 16 c.v x (vx % 256)
  let v2 ← writeArr 16 v1 15 (if 255 < vx then 1 else 0)
  Except.ok (CPU.next { c with v := v2 })

/-- 8xy5 - SUB Vx, Vy: `VF = (vx > vy)` first, then `Vx = vx.wrapping_sub(vy)`
(modelled as `(vx + 256 - vy) % 256`, exact for byte-valued registers). -/
def CPU.op_8xy5 (c : CPU) (x y : Nat) : Except ExecErr CPU := do
  let vx ← readArr 16 c.v x
  let vy ← readArr 16 c.v y
  let v1 ← writeArr 16 c.v 15 (if vy < vx then 1 else 0)
  let v2 ← writeArr 16 v1 x ((vx + 256 - vy) % 256)
  Except.ok (CPU.next { c with v := v2 })

/-- 8xy6 - SHR Vx: `VF = vx & 1` first, then `Vx = vx >> 1`. -/
def CPU.op_8xy6 (c : CPU) (x _y : Nat) : Except ExecErr CPU := do
  let vx ← readArr 16 c.v x
  let v1 ← writeArr 16 c.v 15 (vx &&& 1)
  let v2 ← writeArr 16 v1 x (vx >>> 1)
  Except.ok (CPU.next { c with v := v2 })

/-- 8xy7 - SUBN Vx, Vy: `VF = (vy > vx)` first, then
`Vx = vy.wrapping_sub(vx)`. -/
def CPU.op_8xy7 (c : CPU) (x y : Nat) : Except ExecErr CPU := do
  let vx ← readArr 16 c.v x
  let vy ← readArr 16 c.v y
  let v1 ← writeArr 16 c.v 15 (if vx < vy then 1 else 0)
  let v2 ← writeArr 16 v1 x ((vy + 256 - vx) % 256)
  Except.ok (CPU.next { c with v := v2 })

/-- 8xyE - SHL Vx: `VF = (vx & 0b10000000) >> 7` first, then `Vx = vx << 1`
(a `u8` shift, truncated to 8 bits). -/
def CPU.op_8xye (c : CPU) (x _y : Nat) : Except ExecErr CPU := do
  let vx ← readArr 16 c.v x
  let v1 ← writeArr 16 c.v 15 ((vx &&& 128) >>> 7)
  let v2 ← writeArr 16 v1 x (vx * 2 % 256)
  Except.ok (CPU.next { c with v := v2 })

/-- 9xy0 - SNE Vx, Vy. -/
def CPU.op_9xy0 (c : CPU) (x y : Nat) : Except ExecErr CPU := do
  let vx ← readArr 16 c.v x
  let vy ← readArr 16 c.v y
  Except.ok (CPU.skip_if c (vx != vy))

/-- Annn - LD I, addr. -/
def CPU.op_annn (c : CPU) (nnn : Nat) : Except ExecErr CPU :=
  Except.ok (CPU.next { c with i := nnn })

/-- Bnnn - JP V0, addr. -/
def CPU.op_bnnn (c : CPU) (nnn : Nat) : Except ExecErr CPU := do
  let v0 ← readArr 16 c.v 0
  Except.ok { c with pc := nnn + v0 }

/-- Cxkk - RND Vx, byte: the host RNG draw is the explicit `rnd` argument
(`rnd % 256` is the random `u8`). -/
def CPU.op_cxkk (c : CPU) (x kk rnd : Nat) : Except ExecErr CPU := do
  let v1 ← writeArr 16 c.v x (rnd % 256 &&& kk)
  Except.ok (CPU.next { c with v := v1 })

/-- The inner loop body of `op_dxyn` for one sprite row `pixels` at screen
row `sy`: the pixel list for `xline in 0..8`, each with its bit
`(pixels >> (7 - xline)) & 1 == 1`. -/
def rowPixels (vx sy pixels : Nat) : List (Nat × Nat × Bool) :=
  (List.range 8).map (fun xline => (vx + xline, sy, (pixels >>> (7 - xline)) &&& 1 == 1))

/-- The full pixel sequence of `op_dxyn`'s nested loops, row by row:
row `yline` of the sprite lands at screen row `vy + yline`. -/
def spritePixelsFrom (vx vy : Nat) : List Nat → List (Nat × Nat × Bool)
  | [] => []
  | pixels :: rest => rowPixels vx vy pixels ++ spritePixelsFrom vx (vy + 1) rest

/-- Runs the `vf |= self.display.set(sx, sy, pixel == 1)` calls of `op_dxyn`
in sequence, accumulating the collision flag. -/
def applyPixels : Display → List (Nat × Nat × Bool) → Display × Bool
  | d, [] => (d, false)
  | d, (sx, sy, b) :: rest =>
    let r := Display.set d sx sy b
    let r2 := applyPixels r.1 rest
    (r2.1, r.2 || r2.2)

/-- The `n` sprite bytes `ram[i + yline]` for `yline in 0..n`, each read
bounds-checked as in the source loop. -/
def readSprite (ram : Nat → Nat) (i : Nat) : Nat → Except ExecErr (List Nat)
  | 0 => Except.ok []
  | Nat.succ m => do
    let b ← readArr RAM_SIZE ram i
    let rest ← readSprite ram (i + 1) m
    Except.ok (b :: rest)

/-- The same `n` sprite bytes, as a total function (the value `readSprite`
returns when every read is in bounds). -/
def spriteBytes (ram : Nat → Nat) (i : Nat) : Nat → List Nat
  | 0 => []
  | Nat.succ m => ram i :: spriteBytes ram (i + 1) m

/-- Dxyn - DRW Vx, Vy, nibble: XOR-blit the `n`-byte sprite at
`(Vx, Vy)`, then `VF = collision`, then advance PC.  The source interleaves
the row reads `ram[i + yline]` with the `Display::set` calls; since a failed
read panics (no partial state survives), reading all rows first and then
applying the pixel sequence is observationally the same split. -/
def CPU.op_dxyn (c : CPU) (x y n : Nat) : Except ExecErr CPU := do
  let vx ← readArr 16 c.v x
  let vy ← readArr 16 c.v y
  let sprite ← readSprite c.ram c.i n
  let r := applyPixels c.display (spritePixelsFrom vx vy sprite)
  let v1 ← writeArr 16 c.v 15 (if r.2 then 1 else 0)
  Except.ok (CPU.next { c with display := r.1, v := v1 })

/-- Ex9E - SKP Vx: `skip_if(self.keypad.pressed[self.v[x] as usize])` — the
press-array index is the raw register value, bounds-checked against 16. -/
def CPU.op_ex9e (c : CPU) (x : Nat) : Except ExecErr CPU := do
  let vx ← readArr 16 c.v x
  let p ← readArr 16 c.keypad.pressed vx
  Except.ok (CPU.skip_if c p)

/-- ExA1 - SKNP Vx. -/
def CPU.op_exa1 (c : CPU) (x : Nat) : Except ExecErr CPU := do
  let vx ← readArr 16 c.v x
  let p ← readArr 16 c.keypad.pressed vx
  Except.ok (CPU.skip_if c (!p))

/-- Fx07 - LD Vx, DT. -/
def CPU.op_fx07 (c : CPU) (x : Nat) : Except ExecErr CPU := do
  let v1 ← writeArr 16 c.v x c.audio.delay
  Except.ok (CPU.next { c with v := v1 })

/-- Fx0A - LD Vx, K: record the key-wait register and advance PC. -/
def CPU.op_fx0a (c : CPU) (x : Nat) : Except ExecErr CPU :=
  Except.ok (CPU.next { c with key_register := some x })

/-- Fx15 - LD DT, Vx. -/
def CPU.op_fx15 (c : CPU) (x : Nat) : Except ExecErr CPU := do
  let vx ← readArr 16 c.v x
  Except.ok (CPU.next { c with audio := { c.audio with delay := vx } })

/-- Fx18 - LD ST, Vx (the source method is spelled `opfx18`). -/
def CPU.opfx18 (c : CPU) (x : Nat) : Except ExecErr CPU := do
  let vx ← readArr 16 c.v x
  Except.ok (CPU.next { c with audio := { c.audio with sound := vx } })

/-- Fx1E - ADD I, Vx: `self.i += self.v[x] as u16`; a `u16` overflow of the
checked `+=` panics. -/
def CPU.op_fx1e (c : CPU) (x : Nat) : Except ExecErr CPU := do
  let vx ← readArr 16 c.v x
  if c.i + vx < 65536 then Except.ok (CPU.next { c with i := c.i + vx })
  else Except.error ExecErr.arithOverflow

/-- Fx29 - LD F, Vx: `I = Vx * SPRITE_LENGTH`. -/
def CPU.op_fx29 (c : CPU) (x : Nat) : Except ExecErr CPU := do
  let vx ← readArr 16 c.v x
  Except.ok (CPU.next { c with i := vx * SPRITE_LENGTH })

/-- Fx33 - LD B, Vx: BCD digits of Vx at I, I+1, I+2. -/
def CPU.op_fx33 (c : CPU) (x : Nat) : Except ExecErr CPU := do
  let vx ← readArr 16 c.v x
  let r1 ← writeArr RAM_SIZE c.ram c.i (vx / 100)
  let r2 ← writeArr RAM_SIZE r1 (c.i + 1) (vx % 100 / 10)
  let r3 ← writeArr RAM_SIZE r2 (c.i + 2) (vx % 10)
  Except.ok (CPU.next { c with ram := r3 })

/-- The loop of `op_fx55`: `for vi in 0..=x { self.ram[i + vi] = self.v[vi] }`,
with `fuel` remaining iterations starting at index `vi`. -/
def storeRegs (v : Nat → Nat) (i : Nat) :
    Nat → Nat → (Nat → Nat) → Except ExecErr (Nat → Nat)
  | _, 0, ram => Except.ok ram
  | vi, Nat.succ fuel, ram => do
    let val ← readArr 16 v vi
    let ram1 ← writeArr RAM_SIZE ram (i + vi) val
    storeRegs v i (vi + 1) fuel ram1

/-- Fx55 - LD [I], Vx: store V0..Vx to memory at I. -/
def CPU.op_fx55 (c : CPU) (x : Nat) : Except ExecErr CPU := do
  let ram1 ← storeRegs c.v c.i 0 (x + 1) c.ram
  Except.ok (CPU.next { c with ram := ram1 })

/-- The loop of `op_fx65`: `for vi in 0..=x { self.v[vi] = self.ram[i + vi] }`. -/
def loadRegs (ram : Nat → Nat) (i : Nat) :
    Nat → Nat → (Nat → Nat) → Except ExecErr (Nat → Nat)
  | _, 0, v => Except.ok v
  | vi, Nat.succ fuel, v => do
    let val ← readArr RAM_SIZE ram (i + vi)
    let v1 ← writeArr 16 v vi val
    loadRegs ram i (vi + 1) fuel v1

/-- Fx65 - LD Vx, [I]: load V0..Vx from memory at I. -/
def CPU.op_fx65 (c : CPU) (x : Nat) : Except ExecErr CPU := do
  let v1 ← loadRegs c.ram c.i 0 (x + 1) c.v
  Except.ok (CPU.next { c with v := v1 })

/-- One decoded instruction: one constructor per arm of the `match nibble`
dispatch in `CPU::execute`, carrying exactly the operands the source passes
to the corresponding handler. -/
inductive Instr where
  | op_00e0
  | op_00ee
  | op_0nnn (nnn : Nat)
  | op_1nnn (nnn : Nat)
  | op_2nnn (nnn : Nat)
  | op_3xkk (x kk : Nat)
  | op_4xkk (x kk : Nat)
  | op_5xy0 (x y : Nat)
  | op_6xkk (x kk : Nat)
  | op_7xkk (x kk : Nat)
  | op_8xy0 (x y : Nat)
  | op_8xy1 (x y : Nat)
  | op_8xy2 (x y : Nat)
  | op_8xy3 (x y : Nat)
  | op_8xy4 (x y : Nat)
  | op_8xy5 (x y : Nat)
  | op_8xy6 (x y : Nat)
  | op_8xy7 (x y : Nat)
  | op_8xye (x y : Nat)
  | op_9xy0 (x y : Nat)
  | op_annn (nnn : Nat)
  | op_bnnn (nnn : Nat)
  | op_cxkk (x kk : Nat)
  | op_dxyn (x y n : Nat)
  | op_ex9e (x : Nat)
  | op_exa1 (x : Nat)
  | op_fx07 (x : Nat)
  | op_fx0a (x : Nat)
  | op_fx15 (x : Nat)
  | opfx18 (x : Nat)
  | op_fx1e (x : Nat)
  | op_fx29 (x : Nat)
  | op_fx33 (x : Nat)
  | op_fx55 (x : Nat)
  | op_fx65 (x : Nat)
deriving DecidableEq, Repr

/-- The nibble split and `match nibble` dispatch of `CPU::execute`, arm for
arm in source order; the wildcard arm (the `panic!("Unknown opcode ...")`)
becomes `none`.  Nibble extraction mirrors
`(opcode & 0xF000) >> 12` … `opcode & 0x000F` on the `u16` opcode. -/
def decode (opcode : Nat) : Option Instr :=
  let n0 := opcode / 4096 % 16
  let n1 := opcode / 256 % 16
  let n2 := opcode / 16 % 16
  let n3 := opcode % 16
  let x := n1
  let y := n2
  let n := n3
  let nn := opcode % 256
  let nnn := opcode % 4096
  match n0, n1, n2, n3 with
  | 0x0, 0x0, 0xE, 0x0 => some Instr.op_00e0
  | 0x0, 0x0, 0xE, 0xE => some Instr.op_00ee
  | 0x0, _, _, _ => some (Instr.op_0nnn nnn)
  | 0x1, _, _, _ => some (Instr.op_1nnn nnn)
  | 0x2, _, _, _ => some (Instr.op_2nnn nnn)
  | 0x3, _, _, _ => some (Instr.op_3xkk x nn)
  | 0x4, _, _, _ => some (Instr.op_4xkk x nn)
  | 0x5, _, _, 0x0 => some (Instr.op_5xy0 x y)
  | 0x6, _, _, _ => some (Instr.op_6xkk x nn)
  | 0x7, _, _, _ => some (Instr.op_7xkk x nn)
  | 0x8, _, _, 0x0 => some (Instr.op_8xy0 x y)
  | 0x8, _, _, 0x1 => some (Instr.op_8xy1 x y)
  | 0x8, _, _, 0x2 => some (Instr.op_8xy2 x y)
  | 0x8, _, _, 0x3 => some (Instr.op_8xy3 x y)
  | 0x8, _, _, 0x4 => some (Instr.op_8xy4 x y)
  | 0x8, _, _, 0x5 => some (Instr.op_8xy5 x y)
  | 0x8, _, _, 0x6 => some (Instr.op_8xy6 x y)
  | 0x8, _, _, 0x7 => some (Instr.op_8xy7 x y)
  | 0x8, _, _, 0xE => some (Instr.op_8xye x y)
  | 0x9, _, _, 0x0 => some (Instr.op_9xy0 x y)
  | 0xA, _, _, _ => some (Instr.op_annn nnn)
  | 0xB, _, _, _ => some (Instr.op_bnnn nnn)
  | 0xC, _, _, _ => some (Instr.op_cxkk x nn)
  | 0xD, _, _, _ => some (Instr.op_dxyn x y n)
  | 0xE, _, 0x9, 0xE => some (Instr.op_ex9e x)
  | 0xE, _, 0xA, 0x1 => some (Instr.op_exa1 x)
  | 0xF, _, 0x0, 0x7 => some (Instr.op_fx07 x)
  | 0xF, _, 0x0, 0xA => some (Instr.op_fx0a x)
  | 0xF, _, 0x1, 0x5 => some (Instr.op_fx15 x)
  | 0xF, _, 0x1, 0x8 => some (Instr.opfx18 x)
  | 0xF, _, 0x1, 0xE => some (Instr.op_fx1e x)
  | 0xF, _, 0x2, 0x9 => some (Instr.op_fx29 x)
  | 0xF, _, 0x3, 0x3 => some (Instr.op_fx33 x)
  | 0xF, _, 0x5, 0x5 => some (Instr.op_fx55 x)
  | 0xF, _, 0x6, 0x5 => some (Instr.op_fx65 x)
  | _, _, _, _ => none

/-- Dispatch a decoded instruction to its handler (the right-hand sides of
the `match nibble` arms). -/
def CPU.run (c : CPU) (instr : Instr) (rnd : Nat) : Except ExecErr CPU :=
  match instr with
  | Instr.op_00e0 => CPU.op_00e0 c
  | Instr.op_00ee => CPU.op_00ee c
  | Instr.op_0nnn nnn => CPU.op_0nnn c nnn
  | Instr.op_1nnn nnn => CPU.op_1nnn c nnn
  | Instr.op_2nnn nnn => CPU.op_2nnn c nnn
  | Instr.op_3xkk x kk => CPU.op_3xkk c x kk
  | Instr.op_4xkk x kk => CPU.op_4xkk c x kk
  | Instr.op_5xy0 x y => CPU.op_5xy0 c x y
  | Instr.op_6xkk x kk => CPU.op_6xkk c x kk
  | Instr.op_7xkk x kk => CPU.op_7xkk c x kk
  | Instr.op_8xy0 x y => CPU.op_8xy0 c x y
  | Instr.op_8xy1 x y => CPU.op_8xy1 c x y
  | Instr.op_8xy2 x y => CPU.op_8xy2 c x y
  | Instr.op_8xy3 x y => CPU.op_8xy3 c x y
  | Instr.op_8xy4 x y => CPU.op_8xy4 c x y
  | Instr.op_8xy5 x y => CPU.op_8xy5 c x y
  | Instr.op_8xy6 x y => CPU.op_8xy6 c x y
  | Instr.op_8xy7 x y => CPU.op_8xy7 c x y
  | Instr.op_8xye x y => CPU.op_8xye c x y
  | Instr.op_9xy0 x y => CPU.op_9xy0 c x y
  | Instr.op_annn nnn => CPU.op_annn c nnn
  | Instr.op_bnnn nnn => CPU.op_bnnn c nnn
  | Instr.op_cxkk x kk => CPU.op_cxkk c x kk rnd
  | Instr.op_dxyn x y n => CPU.op_dxyn c x y n
  | Instr.op_ex9e x => CPU.op_ex9e c x
  | Instr.op_exa1 x => CPU.op_exa1 c x
  | Instr.op_fx07 x => CPU.op_fx07 c x
  | Instr.op_fx0a x => CPU.op_fx0a c x
  | Instr.op_fx15 x => CPU.op_fx15 c x
  | Instr.opfx18 x => CPU.opfx18 c x
  | Instr.op_fx1e x => CPU.op_fx1e c x
  | Instr.op_fx29 x => CPU.op_fx29 c x
  | Instr.op_fx33 x => CPU.op_fx33 c x
  | Instr.op_fx55 x => CPU.op_fx55 c x
  | Instr.op_fx65 x => CPU.op_fx65 c x

/-- `CPU::execute`: decode the opcode and run the matching handler; an
opcode no arm matches is the `panic!("Unknown opcode {:x?}", opcode)` —
fatal, carrying the raw opcode value. -/
def CPU.execute (c : CPU) (opcode rnd : Nat) : Except ExecErr CPU :=
  match decode opcode with
  | some instr => CPU.run c instr rnd
  | none => Except.error (ExecErr.unknownOpcode opcode)

/-- The two-byte big-endian fetch inside `CPU::tick`:
`(ram[pc] as u16) << 8 | ram[pc + 1] as u16`, each read bounds-checked. -/
def CPU.fetch (c : CPU) : Except ExecErr Nat := do
  let hi ← readArr RAM_SIZE c.ram c.pc
  let lo ← readArr RAM_SIZE c.ram (c.pc + 1)
  Except.ok ((hi <<< 8) ||| lo)

/-- The machine-step core of `CPU::tick` (after the presentation draw, host
event intake and wall-clock pacing, which belong to the driver): the
`pc >= RAM_SIZE` stall, the key-wait resolution, and otherwise the timer
tick followed by fetch/execute.  Returns the `true` continue signal of the
source (the `false` case is the host quit event, a driver concern). -/
def CPU.tick (c : CPU) (rnd : Nat) : Except ExecErr (Bool × CPU) :=
  if RAM_SIZE ≤ c.pc then Except.ok (true, c)
  else
    match c.key_register with
    | some kr =>
      let r := Keypad.consume_last_released c.keypad
      match r.1 with
      | some lr =>
        (writeArr 16 c.v kr lr).map
          (fun v1 => (true, { c with v := v1, key_register := none, keypad := r.2 }))
      | none => Except.ok (true, { c with keypad := r.2 })
    | none =>
      match Audio.tick c.audio with
      | none => Except.error ExecErr.arithOverflow
      | some audio1 =>
        match CPU.fetch c with
        | Except.error e => Except.error e
        | Except.ok opcode =>
          (CPU.execute { c with audio := audio1 } opcode rnd).map (fun c1 => (true, c1))

/-!
## Generic reduction lemmas for `Except` computations
-/

/-- Bind of a successful `Except` step. -/
theorem ok_bind {α β : Type} (a : α) (f : α → Except ExecErr β) :
    (Except.ok a >>= f : Except ExecErr β) = f a := rfl

/-- Bind of a failed `Except` step. -/
theorem error_bind {α β : Type} (e : ExecErr) (f : α → Except ExecErr β) :
    (Except.error e >>= f : Except ExecErr β) = Except.error e := rfl

/-!
## Concrete machine states used by witnesses and counterexamples
-/

/-- A keypad with no key pressed and an empty latch. -/
def kp0 : Keypad := { pressed := fun _ => false, last_released := none }

/-- A cleared framebuffer with the dirty flag down. -/
def disp0 : Display := { ram := fun _ _ => false, update := false }

/-- The freshly constructed machine state (zero memory and registers,
`pc = 0x200`), without the ROM/font contents, which no claim depends on. -/
def cpu0 : CPU :=
  { ram := fun _ => 0
    pc := 0x200
    v := fun _ => 0
    i := 0
    stack := fun _ => 0
    sp := 0
    keypad := kp0
    key_register := none
    audio := { delay := 0, sound := 0 }
    display := disp0 }

/-- A state about to execute `8F04` with `VF = 200` and `V0 = 100`. -/
def cpuA : CPU :=
  { cpu0 with v := fun j => if j = 15 then 200 else if j = 0 then 100 else 0 }

/-- A state whose next instruction (at `pc = 0x200`) is the undecodable
opcode `0xE000`. -/
def cpuB : CPU := { cpu0 with ram := fun a => if a = 0x200 then 0xE0 else 0 }

/-- A state whose next instruction (at `pc = 0x300`) is the undecodable
opcode `0xE000`. -/
def cpuC : CPU :=
  { cpu0 with
    pc := 0x300
    ram := fun a => if a = 0x300 then 0xE0 else 0 }

/-- A state with the program counter on the last memory byte. -/
def cpu4095 : CPU := { cpu0 with pc := 4095 }

/-- A state with the program counter just past the end of memory. -/
def cpu4096 : CPU := { cpu0 with pc := 4096 }

/-- A state in key-wait for register 3 with key `0xA` latched, but with the
program counter past the end of memory. -/
def cpuF : CPU :=
  { cpu0 with
    pc := 4096
    key_register := some 3
    keypad := { pressed := fun _ => false, last_released := some 10 } }

/-- A state in key-wait for register 3 with key `0xA` latched, at a normal
program counter. -/
def cpuW : CPU :=
  { cpu0 with
    key_register := some 3
    keypad := { pressed := fun _ => false, last_released := some 10 } }

/-- A state with every register holding 16. -/
def cpuK : CPU := { cpu0 with v := fun _ => 16 }

/-- A state with a one-byte sprite `0x80` at address 0 (`I = 0`). -/
def cpuD : CPU := { cpu0 with ram := fun a => if a = 0 then 0x80 else 0 }

/-!
## Claim theorems
-/

/-- Claim C1 (code bug).  The claim: each machine step decrements the delay
and the sound timer once, independently, saturating at zero.  The code of
`Audio::tick` tests `sound > 0` but decrements `delay` again in that branch:
from `delay = 5, sound = 5` one tick leaves `delay = 3, sound = 5` where the
claim requires `delay = 4, sound = 4`; and from `delay = 0, sound = 3` the
second `delay -= 1` underflows the `u8` (a panic, not saturation). -/
theorem c1_audio_tick_code_bug :
    Audio.tick { delay := 5, sound := 5 } = some { delay := 3, sound := 5 } ∧
    Audio.tick { delay := 0, sound := 3 } = none := by
  exact ⟨rfl, rfl⟩

/-- Claim C5 (confirmed).  When the program counter is at or past the end of
memory at the start of a step, the step returns the continue signal and the
entire machine state — registers, memory, stack, timers, framebuffer,
keypad, key-wait register — unchanged, without fetching. -/
theorem c5_stall_noop (c : CPU) (rnd : Nat) (h : RAM_SIZE ≤ c.pc) :
    CPU.tick c rnd = Except.ok (true, c) := by
  unfold CPU.tick
  rw [if_pos h]

/-- Witness for C5 at the concrete state `cpu4096`. -/
theorem c5_stall_noop_witness :
    RAM_SIZE ≤ cpu4096.pc ∧ CPU.tick cpu4096 0 = Except.ok (true, cpu4096) :=
  ⟨by decide, c5_stall_noop cpu4096 0 (by decide)⟩

/-- Claim C2, counterexample.  The claim says the two-byte fetch stays in
bounds for every `pc < 4096`; at `pc = 4095` (which passes the
`pc >= RAM_SIZE` stall guard) the second fetch byte is `ram[4096]`, an
out-of-bounds read, and the step aborts. -/
theorem c2_fetch_cex :
    cpu4095.pc < RAM_SIZE ∧
    CPU.tick cpu4095 0 = Except.error (ExecErr.indexOutOfBounds 4096 4096) :=
  ⟨by decide, rfl⟩

/-- Claim C2 (corrected: the fetch is in bounds only for `pc + 1 < 4096`,
i.e. `pc ≤ 4094`; at `pc = 4095` the fetch of `ram[pc + 1]` is out of
bounds).  Amended statement: for every program counter with
`pc + 1 < 4096`, the two-byte fetch reads `ram[pc]` and `ram[pc + 1]`
within bounds and yields the big-endian opcode. -/
theorem c2_fetch_in_bounds (c : CPU) (h : c.pc + 1 < RAM_SIZE) :
    CPU.fetch c = Except.ok ((c.ram c.pc <<< 8) ||| c.ram (c.pc + 1)) := by
  have h0 : c.pc < RAM_SIZE := Nat.lt_of_succ_lt h
  simp [CPU.fetch, readArr, h0, h, ok_bind]

/-- Witness for C2's amended theorem at the concrete state `cpu0`. -/
theorem c2_fetch_in_bounds_witness :
    cpu0.pc + 1 < RAM_SIZE ∧
    CPU.fetch cpu0 = Except.ok ((cpu0.ram cpu0.pc <<< 8) ||| cpu0.ram (cpu0.pc + 1)) :=
  ⟨by decide, c2_fetch_in_bounds cpu0 (by decide)⟩

/-- Claim C3, counterexample.  The claim fails on the code in two ways.
First, opcode `0x0000` has a nibble pattern that is *not* in the spec's
instruction table (its `0x0NNN` row requires `N ≠ 0`), yet the code's
`(0x0, _, _, _)` arm matches it and silently executes it as a no-op that
advances the program counter — no fatal error at all.  Second, for
opcodes that do hit the fatal arm, the surfaced condition does not report
the offending address: executing the undecodable opcode `0xE000` at
address `0x200` (state `cpuB`) and at address `0x300` (state `cpuC`)
surfaces the *same* error value, carrying only the raw instruction (the
source is `panic!("Unknown opcode {:x?}", opcode)`). -/
theorem c3_report_cex :
    decode 0x0000 = some (Instr.op_0nnn 0) ∧
    CPU.execute cpu0 0x0000 0 = Except.ok (CPU.next cpu0) ∧
    CPU.tick cpuB 0 = Except.error (ExecErr.unknownOpcode 0xE000) ∧
    CPU.tick cpuC 0 = Except.error (ExecErr.unknownOpcode 0xE000) ∧
    cpuB.pc = 0x200 ∧ cpuC.pc = 0x300 :=
  ⟨rfl, rfl, rfl, rfl, rfl, rfl⟩

/-- Claim C3 (corrected).  Amended statement: every opcode matched by no
arm of the code's decoder is a fatal decode error that halts the step and
reports the raw instruction value — never a silent skip — but the report
does not include the offending address; and the decoder's recognized set
is not the spec's instruction table: opcode `0x0000`, excluded from the
table's `0x0NNN (N ≠ 0)` row, is matched by the code's `(0x0, _, _, _)`
arm and silently executed as a no-op that only advances the program
counter. -/
theorem c3_unknown_opcode_fatal (c : CPU) (opcode rnd : Nat)
    (h : decode opcode = none) :
    CPU.execute c opcode rnd = Except.error (ExecErr.unknownOpcode opcode) ∧
    CPU.execute c 0x0000 rnd = Except.ok (CPU.next c) := by
  constructor
  · unfold CPU.execute
    rw [h]
  · rfl

/-- Witness for C3's amended theorem: opcode `0xE000` is undecodable and
executing it is the fatal decode error, while opcode `0x0000` silently
advances the program counter. -/
theorem c3_unknown_opcode_fatal_witness :
    decode 0xE000 = none ∧
    (CPU.execute cpu0 0xE000 0 = Except.error (ExecErr.unknownOpcode 0xE000) ∧
     CPU.execute cpu0 0x0000 0 = Except.ok (CPU.next cpu0)) :=
  ⟨rfl, c3_unknown_opcode_fatal cpu0 0xE000 0 rfl⟩

/-- Claim C9, counterexample.  The claim says the press-array index derived
from `Vx` is always below 16 for every `Vx ≤ 255`; with `Vx = 16` both
key-skip instructions index `pressed[16]` in a 16-entry array and abort. -/
theorem c9_key_skip_cex :
    cpuK.v 0 = 16 ∧
    CPU.op_ex9e cpuK 0 = Except.error (ExecErr.indexOutOfBounds 16 16) ∧
    CPU.op_exa1 cpuK 0 = Except.error (ExecErr.indexOutOfBounds 16 16) :=
  ⟨rfl, rfl, rfl⟩

/-- Claim C9 (corrected: the press-array lookup of `0xEX9E`/`0xEXA1` uses
the raw register value `Vx` unmasked, so it is in bounds exactly when
`Vx < 16`).  Amended statement: for `Vx < 16` both instructions read the
press flag in bounds and skip accordingly; for `Vx ≥ 16` the access is out
of bounds and the step aborts. -/
theorem c9_key_skip_bounds (c : CPU) (x : Nat) (hx : x < 16) :
    (c.v x < 16 →
      CPU.op_ex9e c x = Except.ok (CPU.skip_if c (c.keypad.pressed (c.v x))) ∧
      CPU.op_exa1 c x = Except.ok (CPU.skip_if c (!c.keypad.pressed (c.v x)))) ∧
    (16 ≤ c.v x →
      CPU.op_ex9e c x = Except.error (ExecErr.indexOutOfBounds 16 (c.v x)) ∧
      CPU.op_exa1 c x = Except.error (ExecErr.indexOutOfBounds 16 (c.v x))) := by
  constructor
  · intro hv
    constructor <;> simp [CPU.op_ex9e, CPU.op_exa1, readArr, hx, hv, ok_bind]
  · intro hv
    have hnv : ¬ c.v x < 16 := Nat.not_lt.mpr hv
    constructor <;>
      simp [CPU.op_ex9e, CPU.op_exa1, readArr, hx, hnv, ok_bind, error_bind]

/-- Witness for C9's amended theorem at `cpu0` (where `V0 = 0 < 16`) . -/
theorem c9_key_skip_bounds_witness :
    (0:Nat) < 16 ∧ cpu0.v 0 < 16 ∧
    (CPU.op_ex9e cpu0 0 = Except.ok (CPU.skip_if cpu0 (cpu0.keypad.pressed (cpu0.v 0))) ∧
     CPU.op_exa1 cpu0 0 = Except.ok (CPU.skip_if cpu0 (!cpu0.keypad.pressed (cpu0.v 0)))) :=
  ⟨by decide, by decide, (c9_key_skip_bounds cpu0 0 (by decide)).1 (by decide)⟩

/-!
## Sprite-draw lemmas
-/

/-- The accumulated XOR mask a pixel sequence applies to grid cell
`(Y, X)`: the XOR of the bits of all sequence entries that land on that
cell. -/
def maskOf : List (Nat × Nat × Bool) → Nat → Nat → Bool
  | [], _, _ => false
  | (sx, sy, b) :: rest, Y, X =>
    xor (if Y = sy % DISPLAY_HEIGHT ∧ X = sx % DISPLAY_WIDTH then b else false)
      (maskOf rest Y X)

/-- Applying a pixel sequence XORs each grid cell with its accumulated
mask. -/
theorem applyPixels_ram (ps : List (Nat × Nat × Bool)) :
    ∀ d Y X, ((applyPixels d ps).1).ram Y X = xor (d.ram Y X) (maskOf ps Y X) := by
  induction ps with
  | nil =>
    intro d Y X
    simp [applyPixels, maskOf]
  | cons p rest ih =>
    obtain ⟨sx, sy, b⟩ := p
    intro d Y X
    simp only [applyPixels, maskOf]
    rw [ih]
    simp only [Display.set]
    by_cases h : Y = sy % DISPLAY_HEIGHT ∧ X = sx % DISPLAY_WIDTH
    · rw [if_pos h, if_pos h, Bool.xor_assoc]
    · rw [if_neg h, if_neg h, Bool.false_xor]

/-- Once the dirty flag is set, applying more pixels keeps it set. -/
theorem applyPixels_update_mono (ps : List (Nat × Nat × Bool)) :
    ∀ d, d.update = true → ((applyPixels d ps).1).update = true := by
  induction ps with
  | nil => intro d h; exact h
  | cons p rest ih =>
    obtain ⟨sx, sy, b⟩ := p
    intro d _
    simp only [applyPixels]
    exact ih _ rfl

/-- Applying a nonempty pixel sequence always sets the dirty flag
(`Display::set` sets it unconditionally). -/
theorem applyPixels_update_of_ne_nil (ps : List (Nat × Nat × Bool))
    (d : Display) (h : ps ≠ []) : ((applyPixels d ps).1).update = true := by
  cases ps with
  | nil => exact absurd rfl h
  | cons p rest =>
    obtain ⟨sx, sy, b⟩ := p
    simp only [applyPixels]
    exact applyPixels_update_mono rest _ rfl

/-- Applying the empty pixel sequence leaves the display untouched. -/
theorem applyPixels_nil (d : Display) : applyPixels d [] = (d, false) := rfl

/-- If some entry of the pixel sequence has a set bit and lands on a grid
cell that is set at the start, the accumulated collision flag is true. -/
theorem applyPixels_collision (ps : List (Nat × Nat × Bool)) :
    ∀ d sx sy b, (sx, sy, b) ∈ ps → b = true →
      d.ram (sy % DISPLAY_HEIGHT) (sx % DISPLAY_WIDTH) = true →
      (applyPixels d ps).2 = true := by
  induction ps with
  | nil =>
    intro d sx sy b h
    exact absurd h (List.not_mem_nil _)
  | cons q rest ih =>
    obtain ⟨qx, qy, qb⟩ := q
    intro d sx sy b hmem hb hset
    subst hb
    simp only [applyPixels]
    rcases List.mem_cons.mp hmem with heq | hrest
    · injection heq with h1 h23
      injection h23 with h2 h3
      subst h1
      subst h2
      subst h3
      simp [Display.set, hset]
    · by_cases hpos :
        sy % DISPLAY_HEIGHT = qy % DISPLAY_HEIGHT ∧
        sx % DISPLAY_WIDTH = qx % DISPLAY_WIDTH
      · cases qb with
        | true =>
          have hcell : d.ram (qy % DISPLAY_HEIGHT) (qx % DISPLAY_WIDTH) = true := by
            rw [← hpos.1, ← hpos.2]
            exact hset
          simp [Display.set, hcell]
        | false =>
          have hset1 : (Display.set d qx qy false).1.ram
              (sy % DISPLAY_HEIGHT) (sx % DISPLAY_WIDTH) = true := by
            simp only [Display.set]
            rw [if_pos hpos]
            simp [hset]
          rw [ih _ sx sy true hrest rfl hset1, Bool.or_true]
      · have hset1 : (Display.set d qx qy qb).1.ram
            (sy % DISPLAY_HEIGHT) (sx % DISPLAY_WIDTH) = true := by
          simp only [Display.set]
          rw [if_neg hpos]
          exact hset
        rw [ih _ sx sy true hrest rfl hset1, Bool.or_true]

/-- When the whole sprite lies inside memory, the bounds-checked row reads
succeed and return `spriteBytes`. -/
theorem readSprite_ok (ram : Nat → Nat) :
    ∀ n i, i + n ≤ RAM_SIZE →
      readSprite ram i n = Except.ok (spriteBytes ram i n) := by
  intro n
  induction n with
  | zero => intro i _; rfl
  | succ m ih =>
    intro i h
    have hi : i < RAM_SIZE := by omega
    simp only [readSprite, spriteBytes, readArr]
    rw [if_pos hi, ok_bind, ih (i + 1) (by omega), ok_bind]

/-- A sprite with at least one row yields a nonempty pixel sequence. -/
theorem spritePixelsFrom_cons_ne_nil (vx vy pixels : Nat) (rest : List Nat) :
    spritePixelsFrom vx vy (pixels :: rest) ≠ [] := by
  simp [spritePixelsFrom, rowPixels, List.range_succ]

/-- The display/collision result of a sprite draw: the pixel sequence of the
sprite at `(Vx, Vy)` applied to the current framebuffer. -/
def drawResult (c : CPU) (x y n : Nat) : Display × Bool :=
  applyPixels c.display
    (spritePixelsFrom (c.v x) (c.v y) (spriteBytes c.ram c.i n))

/-- Under in-range register indices and a sprite that lies inside memory,
`op_dxyn` succeeds and produces exactly the `drawResult` framebuffer, the
collision flag in `VF`, and an advanced program counter. -/
theorem op_dxyn_ok (c : CPU) (x y n : Nat) (hx : x < 16) (hy : y < 16)
    (hs : c.i + n ≤ RAM_SIZE) :
    CPU.op_dxyn c x y n = Except.ok
      { c with
        display := (drawResult c x y n).1
        v := fun j => if j = 15 then (if (drawResult c x y n).2 then 1 else 0)
                      else c.v j
        pc := c.pc + OPCODE_LENGTH } := by
  unfold CPU.op_dxyn
  rw [readSprite_ok c.ram n c.i hs]
  simp only [readArr, writeArr]
  rw [if_pos hx, ok_bind, if_pos hy, ok_bind, ok_bind,
    if_pos (show (15:Nat) < 16 by decide), ok_bind]
  rfl

/-- Claim C4, counterexample.  The claim quantifies over *all* register
indices, including `x = 0xF`; but `op_8xy4` writes the sum to `Vx` first and
the carry to `VF` second, so for `x = 0xF` the final `Vx` is the carry bit,
not `(a + b) mod 256`.  At `VF = 200`, `V0 = 100` the claim requires the
final `VF` to be `(200 + 100) % 256 = 44`; the code leaves `1`. -/
theorem c4_add_cex :
    cpuA.v 15 = 200 ∧ cpuA.v 0 = 100 ∧
    (CPU.op_8xy4 cpuA 15 0).map (fun c => c.v 15) = Except.ok 1 ∧
    (200 + 100) % 256 = 44 ∧ (1 : Nat) ≠ 44 :=
  ⟨rfl, rfl, rfl, by decide, by decide⟩

/-- Claim C4 (corrected: the ADD semantics hold for every destination
register except `VF` itself, because the carry write to `VF` follows the sum
write and clobbers it when `x = 0xF`).  Amended statement: for all register
indices `x ≠ 0xF` and `y`, executing `0x8XY4` leaves
`Vx = (Vx + Vy) mod 256`, `VF = 1` iff the sum exceeded 255 (else 0),
and advances the program counter. -/
theorem c4_add_carry (c : CPU) (x y : Nat) (hx : x < 16) (hy : y < 16)
    (hxf : x ≠ 15) :
    ∃ c1, CPU.op_8xy4 c x y = Except.ok c1 ∧
      c1.v x = (c.v x + c.v y) % 256 ∧
      c1.v 15 = (if 255 < c.v x + c.v y then 1 else 0) ∧
      c1.pc = c.pc + OPCODE_LENGTH := by
  have hok : CPU.op_8xy4 c x y = Except.ok (CPU.next
      { c with v := fun j => if j = 15 then (if 255 < c.v x + c.v y then 1 else 0)
                             else if j = x then (c.v x + c.v y) % 256 else c.v j }) := by
    simp [CPU.op_8xy4, readArr, writeArr, hx, hy, ok_bind]
  refine ⟨_, hok, ?_, ?_, rfl⟩
  · simp [CPU.next, hxf]
  · simp [CPU.next]

/-- Witness for C4's amended theorem: `8014` on `cpuA` (`V0 = 100`,
`V1 = 0`) leaves `V0 = 100`, `VF = 0`. -/
theorem c4_add_carry_witness :
    (0:Nat) < 16 ∧ (1:Nat) < 16 ∧ (0:Nat) ≠ 15 ∧
    (∃ c1, CPU.op_8xy4 cpuA 0 1 = Except.ok c1 ∧
      c1.v 0 = (cpuA.v 0 + cpuA.v 1) % 256 ∧
      c1.v 15 = (if 255 < cpuA.v 0 + cpuA.v 1 then 1 else 0) ∧
      c1.pc = cpuA.pc + OPCODE_LENGTH) :=
  ⟨by decide, by decide, by decide,
    c4_add_carry cpuA 0 1 (by decide) (by decide) (by decide)⟩

/-- Claim C8, counterexample.  The claim says that while the key-wait
register is set, the first step on which the latch holds a key `k` stores
`k` into the target register, clears the key-wait register and consumes the
latch.  The `pc >= RAM_SIZE` stall check runs *before* the key-wait check,
so in state `cpuF` (key-wait for register 3, key `0xA` latched, but
`pc = 4096`) the step returns with the machine completely unchanged: `V3`
stays 0, the key-wait register stays set, the latch stays full. -/
theorem c8_keywait_cex :
    cpuF.key_register = some 3 ∧
    cpuF.keypad.last_released = some 10 ∧
    CPU.tick cpuF 0 = Except.ok (true, cpuF) ∧
    cpuF.v 3 = 0 ∧ cpuF.key_register ≠ none :=
  ⟨rfl, rfl, rfl, rfl, by decide⟩

/-- Claim C8 (corrected: the key-wait resolution only runs on steps whose
program counter is below the memory size, because the stall check precedes
it).  Amended statement: while the key-wait register holds `x` and
`pc < 4096`, a step performs no instruction fetch/execute and changes
nothing — except that when the latch holds a key `k`, the step stores `k`
into register `x`, clears the key-wait register and consumes the latch
(memory, PC, stack, timers, framebuffer and the other registers are
untouched either way). -/
theorem c8_keywait_step (c : CPU) (rnd kr : Nat)
    (hkr : c.key_register = some kr) (hlt : kr < 16) (hpc : c.pc < RAM_SIZE) :
    (c.keypad.last_released = none → CPU.tick c rnd = Except.ok (true, c)) ∧
    (∀ k, c.keypad.last_released = some k →
      CPU.tick c rnd = Except.ok (true,
        { c with
          v := fun j => if j = kr then k else c.v j
          key_register := none
          keypad := { pressed := c.keypad.pressed, last_released := none } })) := by
  have hnpc : ¬ RAM_SIZE ≤ c.pc := Nat.not_le.mpr hpc
  obtain ⟨ram, pc, v, i, stack, sp, ⟨pressed, lastr⟩, keyreg, audio, display⟩ := c
  dsimp only at hkr hnpc ⊢
  subst hkr
  constructor
  · intro hl
    subst hl
    unfold CPU.tick
    rw [if_neg hnpc]
    rfl
  · intro k hl
    subst hl
    unfold CPU.tick
    rw [if_neg hnpc]
    show (writeArr 16 v kr k).map _ = _
    unfold writeArr
    rw [if_pos hlt]
    rfl

/-- Witness for C8's amended theorem: the spec's own scenario — key-wait for
register 3, key `0xA` latched, normal `pc` — resolves to `V3 = 0xA` with the
key-wait register cleared and the latch consumed. -/
theorem c8_keywait_step_witness :
    cpuW.key_register = some 3 ∧ (3:Nat) < 16 ∧ cpuW.pc < RAM_SIZE ∧
    cpuW.keypad.last_released = some 10 ∧
    CPU.tick cpuW 0 = Except.ok (true,
      { cpuW with
        v := fun j => if j = 3 then 10 else cpuW.v j
        key_register := none
        keypad := { pressed := cpuW.keypad.pressed, last_released := none } }) :=
  ⟨rfl, by decide, by decide, rfl,
    (c8_keywait_step cpuW 0 3 rfl (by decide) (by decide)).2 10 rfl⟩

/-- `drawResult` of a state that differs from `c` only in display, flag
register `VF` and program counter equals the sprite's pixel sequence of `c`
applied to that display (the sprite source — `ram`, `I`, `Vx`, `Vy` with
`x, y ≠ 0xF` — is unchanged). -/
theorem drawResult_shift (c : CPU) (x y n : Nat) (hxf : x ≠ 15)
    (hyf : y ≠ 15) (d : Display) (cf : Bool) (pcv : Nat) :
    drawResult
      { c with
        display := d
        v := fun j => if j = 15 then (if cf then 1 else 0) else c.v j
        pc := pcv } x y n
      = applyPixels d
          (spritePixelsFrom (c.v x) (c.v y) (spriteBytes c.ram c.i n)) := by
  unfold drawResult
  dsimp only
  rw [if_neg hxf, if_neg hyf]

/-- Claim C6, counterexample.  The claim says a draw whose sprite bits
toggle no pixels leaves the dirty flag in its prior state.  In `cpu0` the
dirty flag is down and the one-row sprite at `I = 0` is the zero byte; the
draw toggles no pixel (cells (0,0) and (0,7) stay off), yet the dirty flag
comes up, because `Display::set` marks dirty unconditionally. -/
theorem c6_dirty_cex :
    cpu0.display.update = false ∧ cpu0.i = 0 ∧ cpu0.ram 0 = 0 ∧
    (CPU.op_dxyn cpu0 0 1 1).map (fun c => c.display.update) = Except.ok true ∧
    (CPU.op_dxyn cpu0 0 1 1).map
      (fun c => (c.display.ram 0 0, c.display.ram 0 7)) =
      Except.ok (false, false) :=
  ⟨rfl, rfl, rfl, rfl, rfl⟩

/-- Claim C6 (corrected: a sprite draw with `n ≥ 1` always marks the
framebuffer dirty — `Display::set` sets the flag on every call, whether or
not a pixel changed; only a zero-row draw `n = 0` leaves the flag in its
prior state).  Amended statement: the dirty flag after `0xDXYN` is the
prior flag when `n = 0` and `true` whenever `n ≥ 1`. -/
theorem c6_dxyn_dirty (c : CPU) (x y n : Nat) (hx : x < 16) (hy : y < 16)
    (hs : c.i + n ≤ RAM_SIZE) :
    ∃ c1, CPU.op_dxyn c x y n = Except.ok c1 ∧
      c1.display.update = (if n = 0 then c.display.update else true) := by
  refine ⟨_, op_dxyn_ok c x y n hx hy hs, ?_⟩
  show ((drawResult c x y n).1).update = _
  cases n with
  | zero =>
    rw [if_pos rfl]
    rfl
  | succ m =>
    rw [if_neg (Nat.succ_ne_zero m)]
    unfold drawResult
    exact applyPixels_update_of_ne_nil _ _ (spritePixelsFrom_cons_ne_nil _ _ _ _)

/-- Witness for C6's amended theorem: the zero-byte one-row draw on `cpu0`
comes out dirty. -/
theorem c6_dxyn_dirty_witness :
    (0:Nat) < 16 ∧ (1:Nat) < 16 ∧ cpu0.i + 1 ≤ RAM_SIZE ∧
    (∃ c1, CPU.op_dxyn cpu0 0 1 1 = Except.ok c1 ∧
      c1.display.update = (if 1 = 0 then cpu0.display.update else true)) :=
  ⟨by decide, by decide, by decide,
    c6_dxyn_dirty cpu0 0 1 1 (by decide) (by decide) (by decide)⟩

/-- Claim C7 (confirmed).  Drawing the same sprite twice in succession —
`0xDXYN` executed on the result of itself, with `I`, memory, `Vx`, `Vy`
unchanged (so `x, y ≠ 0xF`, since the draw writes `VF`) and the sprite in
memory bounds — restores every pixel of the framebuffer grid to its state
before the first draw; and the second draw reports collision `VF = 1`
whenever some sprite entry with a set bit lands on a cell that is set after
the first draw. -/
theorem c7_draw_twice (c : CPU) (x y n : Nat) (hx : x < 16) (hy : y < 16)
    (hxf : x ≠ 15) (hyf : y ≠ 15) (hs : c.i + n ≤ RAM_SIZE) :
    ∃ c1 c2, CPU.op_dxyn c x y n = Except.ok c1 ∧
      CPU.op_dxyn c1 x y n = Except.ok c2 ∧
      (∀ Y X, c2.display.ram Y X = c.display.ram Y X) ∧
      (∀ sx sy b,
        (sx, sy, b) ∈ spritePixelsFrom (c.v x) (c.v y) (spriteBytes c.ram c.i n) →
        b = true →
        c1.display.ram (sy % DISPLAY_HEIGHT) (sx % DISPLAY_WIDTH) = true →
        c2.v 15 = 1) := by
  refine ⟨_, _, op_dxyn_ok c x y n hx hy hs, op_dxyn_ok _ x y n hx hy hs,
    ?_, ?_⟩
  · intro Y X
    dsimp only
    rw [drawResult_shift c x y n hxf hyf]
    unfold drawResult
    rw [applyPixels_ram, applyPixels_ram, Bool.xor_assoc, Bool.xor_self,
      Bool.xor_false]
  · intro sx sy b hmem hb hset
    have hcol := applyPixels_collision
      (spritePixelsFrom (c.v x) (c.v y) (spriteBytes c.ram c.i n))
      ((drawResult c x y n).1) sx sy b hmem hb hset
    dsimp only
    rw [drawResult_shift c x y n hxf hyf, hcol]
    simp

/-- Witness for C7 at `cpuD` (one-row sprite `0x80` at `I = 0`, drawn at
the origin twice). -/
theorem c7_draw_twice_witness :
    (0:Nat) < 16 ∧ (1:Nat) < 16 ∧ (0:Nat) ≠ 15 ∧ (1:Nat) ≠ 15 ∧
    cpuD.i + 1 ≤ RAM_SIZE ∧
    (∃ c1 c2, CPU.op_dxyn cpuD 0 1 1 = Except.ok c1 ∧
      CPU.op_dxyn c1 0 1 1 = Except.ok c2 ∧
      (∀ Y X, c2.display.ram Y X = cpuD.display.ram Y X) ∧
      (∀ sx sy b,
        (sx, sy, b) ∈ spritePixelsFrom (cpuD.v 0) (cpuD.v 1)
          (spriteBytes cpuD.ram cpuD.i 1) →
        b = true →
        c1.display.ram (sy % DISPLAY_HEIGHT) (sx % DISPLAY_WIDTH) = true →
        c2.v 15 = 1)) :=
  ⟨by decide, by decide, by decide, by decide, by decide,
    c7_draw_twice cpuD 0 1 1 (by decide) (by decide) (by decide) (by decide)
      (by decide)⟩

/-- The store loop of `op_fx55` succeeds when the registers it reads and
the memory it writes are in bounds, and it leaves every memory cell outside
`[i + vi, i + vi + fuel)` unchanged. -/
theorem storeRegs_ok (v : Nat → Nat) (i : Nat) :
    ∀ fuel vi ram, vi + fuel ≤ 16 → i + vi + fuel ≤ RAM_SIZE →
      ∃ ram1, storeRegs v i vi fuel ram = Except.ok ram1 ∧
        ∀ a, (a < i + vi ∨ i + vi + fuel ≤ a) → ram1 a = ram a := by
  intro fuel
  induction fuel with
  | zero =>
    intro vi ram _ _
    exact ⟨ram, rfl, fun a _ => rfl⟩
  | succ m ih =>
    intro vi ram hv hr
    have hvi : vi < 16 := by omega
    have hram : i + vi < RAM_SIZE := by omega
    obtain ⟨ram1, h1, hfr⟩ :=
      ih (vi + 1) (fun j => if j = i + vi then v vi else ram j)
        (by omega) (by omega)
    refine ⟨ram1, ?_, ?_⟩
    · unfold storeRegs readArr writeArr
      rw [if_pos hvi, ok_bind, if_pos hram, ok_bind]
      exact h1
    · intro a ha
      rw [hfr a (by omega)]
      have hne : a ≠ i + vi := by omega
      simp [hne]

/-- The load loop of `op_fx65` succeeds under the same bounds and leaves
every register outside `[vi, vi + fuel)` unchanged. -/
theorem loadRegs_ok (ram : Nat → Nat) (i : Nat) :
    ∀ fuel vi v, vi + fuel ≤ 16 → i + vi + fuel ≤ RAM_SIZE →
      ∃ v1, loadRegs ram i vi fuel v = Except.ok v1 ∧
        ∀ j, (j < vi ∨ vi + fuel ≤ j) → v1 j = v j := by
  intro fuel
  induction fuel with
  | zero =>
    intro vi v _ _
    exact ⟨v, rfl, fun j _ => rfl⟩
  | succ m ih =>
    intro vi v hv hr
    have hvi : vi < 16 := by omega
    have hram : i + vi < RAM_SIZE := by omega
    obtain ⟨v1, h1, hfr⟩ :=
      ih (vi + 1) (fun j => if j = vi then ram (i + vi) else v j)
        (by omega) (by omega)
    refine ⟨v1, ?_, ?_⟩
    · unfold loadRegs readArr writeArr
      rw [if_pos hram, ok_bind, if_pos hvi, ok_bind]
      exact h1
    · intro j hj
      rw [hfr j (by omega)]
      have hne : j ≠ vi := by omega
      simp [hne]

/-- Claim C10 (confirmed).  With the sprite range in bounds
(`I + x < 4096`, `x < 16`, the condition for the loops not to panic):
`0xFX55` leaves `I`, all registers, and every other machine field unchanged
and writes no memory cell outside `I..I+x`; `0xFX65` leaves `I` and all of
memory unchanged and writes no register above index `x`.  Both advance the
program counter. -/
theorem c10_fx55_fx65_frame (c : CPU) (x : Nat) (hx : x < 16)
    (hi : c.i + x < RAM_SIZE) :
    (∃ ram1, CPU.op_fx55 c x =
        Except.ok { c with ram := ram1, pc := c.pc + OPCODE_LENGTH } ∧
      ∀ a, (a < c.i ∨ c.i + x < a) → ram1 a = c.ram a) ∧
    (∃ v1, CPU.op_fx65 c x =
        Except.ok { c with v := v1, pc := c.pc + OPCODE_LENGTH } ∧
      ∀ j, x < j → v1 j = c.v j) := by
  constructor
  · obtain ⟨ram1, h1, hfr⟩ :=
      storeRegs_ok c.v c.i (x + 1) 0 c.ram (by omega) (by omega)
    refine ⟨ram1, ?_, ?_⟩
    · unfold CPU.op_fx55
      rw [h1, ok_bind]
      rfl
    · intro a ha
      exact hfr a (by omega)
  · obtain ⟨v1, h1, hfr⟩ :=
      loadRegs_ok c.ram c.i (x + 1) 0 c.v (by omega) (by omega)
    refine ⟨v1, ?_, ?_⟩
    · unfold CPU.op_fx65
      rw [h1, ok_bind]
      rfl
    · intro j hj
      exact hfr j (by omega)

/-- Witness for C10 at `cpu0` with `x = 0`: `F055`/`F065` store/load only
`V0`/address 0. -/
theorem c10_fx55_fx65_frame_witness :
    (0:Nat) < 16 ∧ cpu0.i + 0 < RAM_SIZE ∧
    ((∃ ram1, CPU.op_fx55 cpu0 0 =
        Except.ok { cpu0 with ram := ram1, pc := cpu0.pc + OPCODE_LENGTH } ∧
      ∀ a, (a < cpu0.i ∨ cpu0.i + 0 < a) → ram1 a = cpu0.ram a) ∧
     (∃ v1, CPU.op_fx65 cpu0 0 =
        Except.ok { cpu0 with v := v1, pc := cpu0.pc + OPCODE_LENGTH } ∧
      ∀ j, 0 < j → v1 j = cpu0.v j)) :=
  ⟨by decide, by decide, c10_fx55_fx65_frame cpu0 0 (by decide) (by decide)⟩
